import Mathlib

/-!
Verification of the redaction engine of `misconfig-configobfuscator`
(`src/main.py`), a tool that loads a YAML/JSON configuration file,
replaces values it considers sensitive with a placeholder string, and
writes the result back.

The development shallowly embeds:

* the sensitivity regexes of `ConfigObfuscator.__init__` (a fixed list of
  patterns of the form `(kw\s*:).*` and `("kw"\s*:).*`, searched
  case-insensitively with `re.search`);
* the document tree handed around by the tool (`dict` / `list` / scalar);
* the recursive redaction engine `ConfigObfuscator.obfuscate_config`
  together with its inner closure `obfuscate_value`;
* the control flow of `load_config`, `save_config` and `main`.

All definitions are executable, so concrete scenarios can be settled by
`decide` and universal statements by structural induction.
-/

namespace ConfigObfuscator

/-! ### The sensitivity patterns

`ConfigObfuscator.__init__` stores twelve regexes.  Each is of the form
`(kw\s*:).*` or `("kw"\s*:).*` for a keyword `kw`; the trailing `.*`
always matches, and the capture group is irrelevant to whether
`re.search` succeeds, so `re.search(p, s, re.IGNORECASE)` succeeds iff
`s` contains (case-insensitively) the keyword — quoted for the second
family — followed by zero or more whitespace characters and a colon.
The embedding implements that search directly on the character list.
Whitespace is modelled as Python's ASCII `\s` class, which is exact for
the ASCII texts considered here. -/

/-- The characters of Python's `\s` class, restricted to ASCII:
space, tab, newline, carriage return, vertical tab, form feed. -/
def isPySpace (c : Char) : Bool :=
  c = ' ' || c = '\t' || c = '\n' || c = '\r' || c = Char.ofNat 11 || c = Char.ofNat 12

/-- After the keyword, the regexes demand `\s*` and then a colon: since
`:` is not whitespace, the backtracking search succeeds iff skipping the
leading whitespace run lands on a colon. -/
def spacesThenColon : List Char → Bool
  | [] => false
  | c :: cs => if c = ':' then true else if isPySpace c then spacesThenColon cs else false

/-- Case-insensitive literal-prefix match (Python `re.IGNORECASE`):
returns the remainder of `s` after the pattern prefix `p`, or `none`.
Pattern characters are stored lowercase (the quote character is its own
lowercase). -/
def dropPrefixCI : List Char → List Char → Option (List Char)
  | [], s => some s
  | _ :: _, [] => none
  | p :: ps, c :: cs => if c.toLower = p then dropPrefixCI ps cs else none

/-- Does one of the regexes `(lit\s*:).*` match starting at this
position? -/
def matchHere (lit : List Char) (s : List Char) : Bool :=
  match dropPrefixCI lit s with
  | some rest => spacesThenColon rest
  | none => false

/-- `re.search`: try every start position in `s`. -/
def searchLit (lit : List Char) : List Char → Bool
  | [] => matchHere lit []
  | s@(_ :: cs) => matchHere lit s || searchLit lit cs

/-- The keywords of `self.patterns`, in source order.  Each occurs twice
in the source: bare (`(kw\s*:).*`) and JSON-quoted (`("kw"\s*:).*`). -/
def patternKeywords : List String :=
  ["password", "api_key", "secret", "token", "access_key", "credentials"]

/-- The literal prefixes of the twelve regexes of `self.patterns`, in
the order the source lists them: the six bare forms, then the six quoted
forms. -/
def patternLits : List (List Char) :=
  patternKeywords.map String.toList ++
    patternKeywords.map (fun kw => '"' :: kw.toList ++ ['"'])

/-- `any(re.search(p, s, re.IGNORECASE) for p in self.patterns)`:
the loops in the source break at the first matching pattern, which for
the final value is the same as asking whether any pattern matches. -/
def matchesAnyPattern (s : String) : Bool :=
  patternLits.any (fun lit => searchLit lit s.toList)

/-! ### The document tree

The values the tool manipulates are whatever `yaml.safe_load` /
`json.loads` return: dictionaries with string keys, lists, and scalars
(strings, numbers, booleans, null).  This first embedding restricts
mapping keys to strings — the case the JSON data model guarantees; a
second embedding below (`KValue`) drops that restriction to study the
engine's behaviour on non-string keys. -/

/-- A configuration document node. -/
inductive Value where
  | str (s : String)
  | int (n : Int)
  | bool (b : Bool)
  | null
  | dict (entries : List (String × Value))
  | list (elems : List Value)
deriving Repr

/-! Decidable equality of documents (the deriving handler does not cover
nested inductives, so it is spelt out and proved lawful by hand). -/

mutual

def Value.beq : Value → Value → Bool
  | .str a, .str b => a == b
  | .int a, .int b => a == b
  | .bool a, .bool b => a == b
  | .null, .null => true
  | .dict a, .dict b => beqEntries a b
  | .list a, .list b => beqElems a b
  | _, _ => false

def beqEntries : List (String × Value) → List (String × Value) → Bool
  | [], [] => true
  | (k, v) :: es, (l, w) :: fs => k == l && Value.beq v w && beqEntries es fs
  | _, _ => false

def beqElems : List Value → List Value → Bool
  | [], [] => true
  | v :: vs, w :: ws => Value.beq v w && beqElems vs ws
  | _, _ => false

end

mutual

theorem Value.beq_iff : ∀ a b : Value, Value.beq a b = true ↔ a = b
  | .str a, .str b => by simp [Value.beq]
  | .int a, .int b => by simp [Value.beq]
  | .bool a, .bool b => by simp [Value.beq]
  | .null, .null => by simp [Value.beq]
  | .dict a, .dict b => by simp [Value.beq, beqEntries_iff a b]
  | .list a, .list b => by simp [Value.beq, beqElems_iff a b]
  | .str _, .int _ | .str _, .bool _ | .str _, .null | .str _, .dict _ | .str _, .list _
  | .int _, .str _ | .int _, .bool _ | .int _, .null | .int _, .dict _ | .int _, .list _
  | .bool _, .str _ | .bool _, .int _ | .bool _, .null | .bool _, .dict _ | .bool _, .list _
  | .null, .str _ | .null, .int _ | .null, .bool _ | .null, .dict _ | .null, .list _
  | .dict _, .str _ | .dict _, .int _ | .dict _, .bool _ | .dict _, .null | .dict _, .list _
  | .list _, .str _ | .list _, .int _ | .list _, .bool _ | .list _, .null | .list _, .dict _ =>
      by simp [Value.beq]

theorem beqEntries_iff : ∀ a b : List (String × Value), beqEntries a b = true ↔ a = b
  | [], [] => by simp [beqEntries]
  | (k, v) :: es, (l, w) :: fs => by
      simp [beqEntries, Value.beq_iff v w, beqEntries_iff es fs, and_assoc]
  | [], _ :: _ => by simp [beqEntries]
  | _ :: _, [] => by simp [beqEntries]

theorem beqElems_iff : ∀ a b : List Value, beqElems a b = true ↔ a = b
  | [], [] => by simp [beqElems]
  | v :: vs, w :: ws => by simp [beqElems, Value.beq_iff v w, beqElems_iff vs ws]
  | [], _ :: _ => by simp [beqElems]
  | _ :: _, [] => by simp [beqElems]

end

instance : DecidableEq Value := fun a b => decidable_of_iff _ (Value.beq_iff a b)

/-! ### The redaction engine

`ConfigObfuscator.obfuscate_config` iterates the entries of a dict:

* a string value is replaced by the placeholder iff some pattern matches
  the KEY (the source comment says "Check key too", but the key is the
  only thing checked);
* a dict value is replaced by the recursive result;
* a list value is replaced by mapping the inner closure
  `obfuscate_value` over its elements;
* any other value is left alone.

The closure `obfuscate_value` replaces a string by the placeholder iff
some pattern matches the STRING ITSELF, recurses into dicts via
`obfuscate_config` and into lists elementwise, and passes every other
value through. -/

mutual

/-- The inner closure `obfuscate_value` of `obfuscate_config`. -/
def obfuscate_value (ph : String) : Value → Value
  | .str s => if matchesAnyPattern s then .str ph else .str s
  | .dict es => .dict (obfuscate_config ph es)
  | .list xs => .list (obfuscate_list ph xs)
  | .int n => .int n
  | .bool b => .bool b
  | .null => .null

/-- The list comprehension `[obfuscate_value(item) for item in value]`. -/
def obfuscate_list (ph : String) : List Value → List Value
  | [] => []
  | x :: xs => obfuscate_value ph x :: obfuscate_list ph xs

/-- The entry loop of `ConfigObfuscator.obfuscate_config`. -/
def obfuscate_config (ph : String) : List (String × Value) → List (String × Value)
  | [] => []
  | (k, .str s) :: rest =>
      (k, if matchesAnyPattern k then Value.str ph else Value.str s)
        :: obfuscate_config ph rest
  | (k, .dict es) :: rest => (k, .dict (obfuscate_config ph es)) :: obfuscate_config ph rest
  | (k, .list xs) :: rest => (k, .list (obfuscate_list ph xs)) :: obfuscate_config ph rest
  | (k, v) :: rest => (k, v) :: obfuscate_config ph rest

end

/-! ### Shapes

The shape of a document records everything except the contents of
scalars: which keys exist at each mapping, how long each list is, how
the nodes nest, and the kind of every node. -/

/-- The shape of a document node. -/
inductive Shape where
  | sstr
  | sint
  | sbool
  | snull
  | sdict (xs : List (String × Shape))
  | slist (xs : List Shape)

mutual

/-- The shape of a document. -/
def Value.shape : Value → Shape
  | .str _ => .sstr
  | .int _ => .sint
  | .bool _ => .sbool
  | .null => .snull
  | .dict es => .sdict (shapeEntries es)
  | .list xs => .slist (shapeElems xs)

def shapeEntries : List (String × Value) → List (String × Shape)
  | [] => []
  | (k, v) :: rest => (k, Value.shape v) :: shapeEntries rest

def shapeElems : List Value → List Shape
  | [] => []
  | v :: vs => Value.shape v :: shapeElems vs

end

/-! ### The writer (`ConfigObfuscator.save_config`)

`save_config` dispatches on the output file's extension: `.yaml`/`.yml`
gives `yaml.dump(config, f, indent=2)`, `.json` gives
`json.dump(config, f, indent=2)`, and anything else falls back to
`yaml.dump` after a warning.  The serialization itself is done by the
libraries; for key order their documented behaviour is modelled below:
`json.dump` iterates the dict in insertion order (its `sort_keys`
default is `False`), while `yaml.dump`'s representer has
`sort_keys=True` by default and emits every mapping's keys in sorted
order. -/

/-- Python's `str.endswith`, over the character list. -/
def pyEndsWith (s suffix : String) : Bool :=
  suffix.toList.length ≤ s.toList.length
    && s.toList.drop (s.toList.length - suffix.toList.length) == suffix.toList

/-- The serialization format `save_config` picks, with `true` in the
second component when the fallback branch (unknown extension) was taken
and a warning is logged. -/
def chooseFormat (path : String) : Bool × Bool :=
  if pyEndsWith path ".yaml" || pyEndsWith path ".yml" then (true, false)
  else if pyEndsWith path ".json" then (false, false)
  else (true, true)

/-- Lexicographic comparison of character lists by code point, the
order Python's `sorted` uses on strings. -/
def charListLt : List Char → List Char → Bool
  | _, [] => false
  | [], _ :: _ => true
  | c :: cs, d :: ds =>
      if c.toNat < d.toNat then true
      else if d.toNat < c.toNat then false
      else charListLt cs ds

/-- Python's `<` on strings. -/
def pyStrLt (a b : String) : Bool := charListLt a.toList b.toList

/-- Ordered insertion of an entry into a key-sorted list of entries,
used to model the `sorted(mapping.items())` step of PyYAML's default
representer. -/
def insertByKey (p : String × Value) : List (String × Value) → List (String × Value)
  | [] => [p]
  | q :: qs => if pyStrLt p.1 q.1 then p :: q :: qs else q :: insertByKey p qs

mutual

/-- Models PyYAML `yaml.dump` with its default `sort_keys=True`: every
mapping's entries are emitted sorted by key; values are recursively
treated the same way.  (`json.dump` with its default `sort_keys=False`
is the identity on key order and needs no model.) -/
def yamlSortKeys : Value → Value
  | .str s => .str s
  | .int n => .int n
  | .bool b => .bool b
  | .null => .null
  | .dict es => .dict (yamlSortEntries es)
  | .list xs => .list (yamlSortElems xs)

def yamlSortEntries : List (String × Value) → List (String × Value)
  | [] => []
  | (k, v) :: rest => insertByKey (k, yamlSortKeys v) (yamlSortEntries rest)

def yamlSortElems : List Value → List Value
  | [] => []
  | v :: vs => yamlSortKeys v :: yamlSortElems vs

end

/-- The key order `save_config` hands to the output file: the document
itself for JSON, the key-sorted document for YAML (including the
unknown-extension fallback, which also uses `yaml.dump`). -/
def save_order (path : String) (v : Value) : Value :=
  if (chooseFormat path).1 then yamlSortKeys v else v

/-! ### The loader (`ConfigObfuscator.load_config`) and `main`

`load_config` reads the file, tries `yaml.safe_load`, and on a
`YAMLError` falls back to `json.loads`; if that also fails it logs an
error and returns `None`, as it does when the file cannot be read.  The
two library parsers are abstracted as `Option Value`-returning
functions supplied to the model (the contents of the parsed documents
are irrelevant to the control flow being verified).  The two `None`
returns are distinguished here as the two error kinds the run can
report. -/

/-- The failures of `load_config` (both surface as `return None` in the
source, after logging the corresponding error message). -/
inductive LoadError where
  | ioFailure
  | unrecognizedFormat
deriving DecidableEq, Repr

/-- `ConfigObfuscator.load_config`: `readResult` is the outcome of
`open`/`read` (`none` models `FileNotFoundError`/OS errors),
`yamlParse` and `jsonParse` the outcomes of `yaml.safe_load` and
`json.loads` on the file's content (`none` models the exception the
source catches). -/
def load_config (readResult : Option String)
    (yamlParse jsonParse : String → Option Value) : Except LoadError Value :=
  match readResult with
  | none => .error .ioFailure
  | some content =>
      match yamlParse content with
      | some v => .ok v
      | none =>
          match jsonParse content with
          | some v => .ok v
          | none => .error .unrecognizedFormat

/-- Python truthiness of a loaded document, as tested by `if config:`
in `main` (`None`, `False`, `0`, `""`, `{}` and `[]` are falsy). -/
def pyTruthy : Value → Bool
  | .null => false
  | .bool b => b
  | .int n => n != 0
  | .str s => s != ""
  | .dict es => !es.isEmpty
  | .list xs => !xs.isEmpty

/-- The control flow of `main` after argument parsing: the
`os.path.exists` guard, then `load_config`, then `if config:`, then
`obfuscate_config` and `save_config`.  Returns the process exit code
and the document handed to a successful `save_config`, `none` when no
complete output is produced.  A load that yields a truthy non-dict
makes `obfuscate_config(config)` raise (`config.items()` is missing),
which terminates the interpreter with exit code 1 before any write. -/
def mainRun (inputExists : Bool) (loadResult : Except LoadError Value)
    (ph : String) (saveOk : Bool) : Nat × Option Value :=
  if !inputExists then (1, none)
  else
    match loadResult with
    | .error _ => (1, none)
    | .ok config =>
        if pyTruthy config then
          match config with
          | .dict es =>
              if saveOk then (0, some (.dict (obfuscate_config ph es))) else (1, none)
          | _ => (1, none)
        else (1, none)

/-! ### The engine over documents with arbitrary keys

YAML mappings may carry non-string keys, and `obfuscate_config` never
checks its keys' types.  This second embedding keeps the keys tagged so
the behaviour on non-string keys can be studied: the only place a key
is consumed is `re.search(pattern, key, re.IGNORECASE)` in the
string-value branch, and `re.search` raises a `TypeError` when its
second argument is not a string.  The raised exception is modelled as
the `Except.error` outcome; every other branch of the engine is
verbatim the one of `obfuscate_config` above. -/

/-- A mapping key as Python may produce it from YAML: a string or some
other hashable scalar. -/
inductive PyKey where
  | str (s : String)
  | int (n : Int)
  | bool (b : Bool)
  | null
deriving DecidableEq, Repr

/-- A document node with tagged mapping keys. -/
inductive KValue where
  | str (s : String)
  | int (n : Int)
  | bool (b : Bool)
  | null
  | dict (entries : List (PyKey × KValue))
  | list (elems : List KValue)

/-- The exception `re.search` raises on a non-string key, uncaught in
the source. -/
inductive PyError where
  | typeError
deriving DecidableEq, Repr

mutual

/-- `obfuscate_value` over tagged-key documents. -/
def obfuscateK_value (ph : String) : KValue → Except PyError KValue
  | .str s => .ok (if matchesAnyPattern s then .str ph else .str s)
  | .dict es =>
      match obfuscateK_config ph es with
      | .error e => .error e
      | .ok r => .ok (.dict r)
  | .list xs =>
      match obfuscateK_list ph xs with
      | .error e => .error e
      | .ok r => .ok (.list r)
  | .int n => .ok (.int n)
  | .bool b => .ok (.bool b)
  | .null => .ok .null

def obfuscateK_list (ph : String) : List KValue → Except PyError (List KValue)
  | [] => .ok []
  | x :: xs =>
      match obfuscateK_value ph x with
      | .error e => .error e
      | .ok v =>
          match obfuscateK_list ph xs with
          | .error e => .error e
          | .ok vs => .ok (v :: vs)

/-- `obfuscate_config` over tagged-key documents.  In the string-value
branch the key reaches `re.search`; a non-string key there raises. -/
def obfuscateK_config (ph : String) :
    List (PyKey × KValue) → Except PyError (List (PyKey × KValue))
  | [] => .ok []
  | (k, .str s) :: rest =>
      match k with
      | .str ks =>
          (match obfuscateK_config ph rest with
           | .error e => .error e
           | .ok r =>
               .ok ((PyKey.str ks,
                 if matchesAnyPattern ks then KValue.str ph else KValue.str s) :: r))
      | _ => .error .typeError
  | (k, .dict es) :: rest =>
      match obfuscateK_config ph es with
      | .error e => .error e
      | .ok r =>
          match obfuscateK_config ph rest with
          | .error e => .error e
          | .ok t => .ok ((k, .dict r) :: t)
  | (k, .list xs) :: rest =>
      match obfuscateK_list ph xs with
      | .error e => .error e
      | .ok r =>
          match obfuscateK_config ph rest with
          | .error e => .error e
          | .ok t => .ok ((k, .list r) :: t)
  | (k, v) :: rest =>
      match obfuscateK_config ph rest with
      | .error e => .error e
      | .ok t => .ok ((k, v) :: t)

end

/-- Is this key a Python string? -/
def PyKey.isStr : PyKey → Bool
  | .str _ => true
  | _ => false

mutual

/-- Every mapping key in the document is a string. -/
def KValue.strKeys : KValue → Bool
  | .dict es => strKeysEntries es
  | .list xs => strKeysElems xs
  | _ => true

def strKeysEntries : List (PyKey × KValue) → Bool
  | [] => true
  | (k, v) :: rest => PyKey.isStr k && KValue.strKeys v && strKeysEntries rest

def strKeysElems : List KValue → Bool
  | [] => true
  | v :: vs => KValue.strKeys v && strKeysElems vs

end

/-! ### Helper lemmas -/

mutual

theorem shape_obf_value (ph : String) :
    ∀ v : Value, Value.shape (obfuscate_value ph v) = Value.shape v
  | .str s => by cases h : matchesAnyPattern s <;> simp [obfuscate_value, h, Value.shape]
  | .dict es => by simp [obfuscate_value, Value.shape, shape_obf_entries ph es]
  | .list xs => by simp [obfuscate_value, Value.shape, shape_obf_elems ph xs]
  | .int _ => rfl
  | .bool _ => rfl
  | .null => rfl

theorem shape_obf_entries (ph : String) :
    ∀ es : List (String × Value), shapeEntries (obfuscate_config ph es) = shapeEntries es
  | [] => rfl
  | (k, .str s) :: rest => by
      cases h : matchesAnyPattern k <;>
        simp [obfuscate_config, h, shapeEntries, Value.shape, shape_obf_entries ph rest]
  | (k, .dict es) :: rest => by
      simp [obfuscate_config, shapeEntries, Value.shape,
        shape_obf_entries ph es, shape_obf_entries ph rest]
  | (k, .list xs) :: rest => by
      simp [obfuscate_config, shapeEntries, Value.shape,
        shape_obf_elems ph xs, shape_obf_entries ph rest]
  | (k, .int n) :: rest => by simp [obfuscate_config, shapeEntries, shape_obf_entries ph rest]
  | (k, .bool b) :: rest => by simp [obfuscate_config, shapeEntries, shape_obf_entries ph rest]
  | (k, .null) :: rest => by simp [obfuscate_config, shapeEntries, shape_obf_entries ph rest]

theorem shape_obf_elems (ph : String) :
    ∀ xs : List Value, shapeElems (obfuscate_list ph xs) = shapeElems xs
  | [] => rfl
  | x :: xs => by simp [obfuscate_list, shapeElems, shape_obf_value ph x, shape_obf_elems ph xs]

end

mutual

theorem obf_value_idem (ph : String) :
    ∀ v : Value, obfuscate_value ph (obfuscate_value ph v) = obfuscate_value ph v
  | .str s => by
      cases h : matchesAnyPattern s
      · simp [obfuscate_value, h]
      · cases h2 : matchesAnyPattern ph <;> simp [obfuscate_value, h, h2]
  | .dict es => by simp [obfuscate_value, obf_config_idem ph es]
  | .list xs => by simp [obfuscate_value, obf_list_idem ph xs]
  | .int _ => rfl
  | .bool _ => rfl
  | .null => rfl

theorem obf_list_idem (ph : String) :
    ∀ xs : List Value, obfuscate_list ph (obfuscate_list ph xs) = obfuscate_list ph xs
  | [] => rfl
  | x :: xs => by simp [obfuscate_list, obf_value_idem ph x, obf_list_idem ph xs]

theorem obf_config_idem (ph : String) :
    ∀ es : List (String × Value), obfuscate_config ph (obfuscate_config ph es) = obfuscate_config ph es
  | [] => rfl
  | (k, .str s) :: rest => by
      cases h : matchesAnyPattern k <;> simp [obfuscate_config, h, obf_config_idem ph rest]
  | (k, .dict es) :: rest => by
      simp [obfuscate_config, obf_config_idem ph es, obf_config_idem ph rest]
  | (k, .list xs) :: rest => by
      simp [obfuscate_config, obf_list_idem ph xs, obf_config_idem ph rest]
  | (k, .int n) :: rest => by simp [obfuscate_config, obf_config_idem ph rest]
  | (k, .bool b) :: rest => by simp [obfuscate_config, obf_config_idem ph rest]
  | (k, .null) :: rest => by simp [obfuscate_config, obf_config_idem ph rest]

end

theorem obf_list_eq_map (ph : String) :
    ∀ xs : List Value, obfuscate_list ph xs = xs.map (obfuscate_value ph)
  | [] => rfl
  | x :: xs => by simp [obfuscate_list, obf_list_eq_map ph xs]

mutual

theorem strKeys_ok_value (ph : String) :
    ∀ v : KValue, KValue.strKeys v = true → ∃ r, obfuscateK_value ph v = .ok r
  | .str s, _ => ⟨_, rfl⟩
  | .dict es, h => by
      obtain ⟨r, hr⟩ := strKeys_ok_entries ph es (by simpa [KValue.strKeys] using h)
      exact ⟨.dict r, by simp [obfuscateK_value, hr]⟩
  | .list xs, h => by
      obtain ⟨r, hr⟩ := strKeys_ok_elems ph xs (by simpa [KValue.strKeys] using h)
      exact ⟨.list r, by simp [obfuscateK_value, hr]⟩
  | .int _, _ => ⟨_, rfl⟩
  | .bool _, _ => ⟨_, rfl⟩
  | .null, _ => ⟨_, rfl⟩

theorem strKeys_ok_entries (ph : String) :
    ∀ es : List (PyKey × KValue), strKeysEntries es = true → ∃ r, obfuscateK_config ph es = .ok r
  | [], _ => ⟨[], rfl⟩
  | (k, v) :: rest, h => by
      rw [strKeysEntries] at h
      simp only [Bool.and_eq_true] at h
      obtain ⟨⟨hk, hv⟩, hrest⟩ := h
      obtain ⟨t, ht⟩ := strKeys_ok_entries ph rest hrest
      cases k with
      | int n => simp [PyKey.isStr] at hk
      | bool b => simp [PyKey.isStr] at hk
      | null => simp [PyKey.isStr] at hk
      | str ks =>
        cases v with
        | str s =>
            exact ⟨(PyKey.str ks,
                if matchesAnyPattern ks then KValue.str ph else KValue.str s) :: t,
              by simp [obfuscateK_config, ht]⟩
        | dict es2 =>
            obtain ⟨r, hr⟩ := strKeys_ok_entries ph es2 (by simpa [KValue.strKeys] using hv)
            exact ⟨(PyKey.str ks, KValue.dict r) :: t, by simp [obfuscateK_config, hr, ht]⟩
        | list xs =>
            obtain ⟨r, hr⟩ := strKeys_ok_elems ph xs (by simpa [KValue.strKeys] using hv)
            exact ⟨(PyKey.str ks, KValue.list r) :: t, by simp [obfuscateK_config, hr, ht]⟩
        | int n => exact ⟨(PyKey.str ks, KValue.int n) :: t, by simp [obfuscateK_config, ht]⟩
        | bool b => exact ⟨(PyKey.str ks, KValue.bool b) :: t, by simp [obfuscateK_config, ht]⟩
        | null => exact ⟨(PyKey.str ks, KValue.null) :: t, by simp [obfuscateK_config, ht]⟩

theorem strKeys_ok_elems (ph : String) :
    ∀ xs : List KValue, strKeysElems xs = true → ∃ r, obfuscateK_list ph xs = .ok r
  | [], _ => ⟨[], rfl⟩
  | x :: xs, h => by
      rw [strKeysElems] at h
      simp only [Bool.and_eq_true] at h
      obtain ⟨v, hv⟩ := strKeys_ok_value ph x h.1
      obtain ⟨vs, hvs⟩ := strKeys_ok_elems ph xs h.2
      exact ⟨v :: vs, by simp [obfuscateK_list, hv, hvs]⟩

end

/-! ### The claims -/

/-- C1: the spec's scenario says `{"db": {"password": "hunter2", "host":
"localhost"}}` with placeholder `<REDACTED>` redacts to `{"db":
{"password": "<REDACTED>", "host": "localhost"}}`.  Evaluating the
engine at that input shows the document comes back UNCHANGED — every
sensitivity regex demands a colon after the keyword (`password\s*:`),
and a parsed mapping key is the bare word `password`, so the key check
never fires — and the unchanged document differs from the output the
claim states. -/
theorem c1_scenario_eval :
    obfuscate_config "<REDACTED>"
        [("db", .dict [("password", .str "hunter2"), ("host", .str "localhost")])]
      = [("db", .dict [("password", .str "hunter2"), ("host", .str "localhost")])] ∧
    [("db", Value.dict [("password", Value.str "hunter2"), ("host", Value.str "localhost")])]
      ≠ [("db", Value.dict [("password", Value.str "<REDACTED>"), ("host", Value.str "localhost")])] := by
  decide

/-- C2: the claim says a key matching a SensitivityPattern has its
entire value replaced with the placeholder, without recursion, in
particular for `{"password": {"nested": "value"}}`.  Evaluating the
engine shows otherwise: the key check lives only in the string-value
branch, so a dict value is always recursed into regardless of its key
— the claimed example comes back unchanged, and even a key that the
patterns do match (`"password:"`, colon included) keeps its dict value
recursed rather than replaced. -/
theorem c2_key_priority_eval :
    obfuscate_config "<REDACTED>" [("password", .dict [("nested", .str "value")])]
      = [("password", .dict [("nested", .str "value")])] ∧
    matchesAnyPattern "password:" = true ∧
    obfuscate_config "<REDACTED>" [("password:", .dict [("nested", .str "value")])]
      = [("password:", .dict [("nested", .str "value")])] ∧
    [("password", Value.dict [("nested", Value.str "value")])]
      ≠ [("password", Value.str "<REDACTED>")] := by
  decide

/-- C3: the claim says a string value whose key is not sensitive has
its own text checked against the patterns, and is replaced iff a
pattern matches that text.  Evaluating the engine refutes it: for
`{"note": "password: hunter2"}` the value's text matches a pattern,
yet the value is left unchanged — the string-value branch searches the
patterns in the KEY only (`re.search(pattern, key, ...)`), never in
the value. -/
theorem c3_value_text_eval :
    matchesAnyPattern "password: hunter2" = true ∧
    obfuscate_config "<REDACTED>" [("note", .str "password: hunter2")]
      = [("note", .str "password: hunter2")] := by
  decide

/-- C4: redaction preserves shape — for every document whose root is a
mapping, the redacted document has the same keys, the same list
lengths, identical nesting and the same node kind at every position;
only the contents of scalars can change. -/
theorem c4_shape_preservation (ph : String) (es : List (String × Value)) :
    Value.shape (Value.dict (obfuscate_config ph es)) = Value.shape (Value.dict es) := by
  simp [Value.shape, shape_obf_entries ph es]

/-- C5: redaction is idempotent — for every placeholder (including one
whose text itself matches a SensitivityPattern) and every document
whose root is a mapping, redacting an already-redacted document
changes nothing further. -/
theorem c5_idempotent (ph : String) (es : List (String × Value)) :
    obfuscate_config ph (obfuscate_config ph es) = obfuscate_config ph es :=
  obf_config_idem ph es

/-- C6 counterexample: the claim states that non-string elements of a
sequence pass through unchanged, but a mapping element of a list is
recursed into by the inner `obfuscate_value` closure and can change:
for the mapping value `[{"password:": "v"}]` the element's entry is
redacted (its key, colon included, matches a pattern), so the
non-string element does not pass through unchanged. -/
theorem c6_counterexample :
    obfuscate_config "<REDACTED>" [("k", .list [.dict [("password:", .str "v")]])]
      = [("k", .list [.dict [("password:", .str "<REDACTED>")]])] ∧
    Value.dict [("password:", Value.str "<REDACTED>")]
      ≠ Value.dict [("password:", Value.str "v")] := by
  decide

/-- C6 amended: when a mapping value is a sequence, the engine
processes it elementwise in order (the output list is the elementwise
image, so length and order are preserved): string elements are checked
against the patterns by their own text and replaced wholesale on
match, non-string SCALAR elements pass through unchanged, while
mapping and sequence elements are recursively redacted; the scenario
`["secret: abc", "normal text"]` becomes `[placeholder, "normal
text"]`. -/
theorem c6_list_redaction (ph k : String) (xs : List Value) :
    obfuscate_config ph [(k, .list xs)] = [(k, .list (obfuscate_list ph xs))] ∧
    obfuscate_list ph xs = xs.map (obfuscate_value ph) ∧
    (obfuscate_list ph xs).length = xs.length ∧
    (∀ s, obfuscate_value ph (.str s) = if matchesAnyPattern s then .str ph else .str s) ∧
    (∀ n : Int, obfuscate_value ph (.int n) = .int n) ∧
    (∀ b : Bool, obfuscate_value ph (.bool b) = .bool b) ∧
    obfuscate_value ph .null = .null ∧
    obfuscate_config "<REDACTED>" [("k", .list [.str "secret: abc", .str "normal text"])]
      = [("k", .list [.str "<REDACTED>", .str "normal text"])] := by
  refine ⟨by simp [obfuscate_config], obf_list_eq_map ph xs, ?_,
    fun s => by simp [obfuscate_value], fun n => rfl, fun b => rfl, rfl, by decide⟩
  rw [obf_list_eq_map]
  simp

/-- C7: the claim says the writer preserves the mapping key order of
the redacted document exactly, for YAML as well as JSON output.
Evaluating the writer model refutes the YAML half: `save_config` calls
`yaml.dump(config, f, indent=2)` without `sort_keys=False`, and
PyYAML's default representer sorts every mapping's keys, so a document
with keys in order `b, a` is emitted as `a, b`; the JSON branch
(`json.dump`) does keep insertion order. -/
theorem c7_yaml_key_order_eval :
    save_order "out.yaml" (.dict [("b", .int 1), ("a", .int 2)])
      = .dict [("a", .int 2), ("b", .int 1)] ∧
    save_order "out.json" (.dict [("b", .int 1), ("a", .int 2)])
      = .dict [("b", .int 1), ("a", .int 2)] ∧
    Value.dict [("a", Value.int 2), ("b", Value.int 1)]
      ≠ Value.dict [("b", Value.int 1), ("a", Value.int 2)] := by
  decide

/-- C8: when the file's content parses as neither YAML nor JSON,
`load_config` returns the unrecognized-format failure (after logging
an error — not a silent empty document), and `main` then terminates
the run with exit code 1 without any output being written, whatever
the placeholder, the save outcome and the existence check. -/
theorem c8_unrecognized_format (inputExists : Bool) (content : String)
    (yamlParse jsonParse : String → Option Value) (ph : String) (saveOk : Bool)
    (hy : yamlParse content = none) (hj : jsonParse content = none) :
    load_config (some content) yamlParse jsonParse = .error .unrecognizedFormat ∧
    mainRun inputExists (load_config (some content) yamlParse jsonParse) ph saveOk = (1, none) := by
  have hload : load_config (some content) yamlParse jsonParse = .error .unrecognizedFormat := by
    simp [load_config, hy, hj]
  refine ⟨hload, ?_⟩
  cases inputExists <;> simp [mainRun, hload]

/-- C8 witness: a concrete unparseable content, with both parsers
failing on it. -/
theorem c8_witness :
    load_config (some "][") (fun _ => none) (fun _ => none) = .error .unrecognizedFormat ∧
    mainRun true (load_config (some "][") (fun _ => none) (fun _ => none)) "<REDACTED>" true
      = (1, none) :=
  c8_unrecognized_format true "][" (fun _ => none) (fun _ => none) "<REDACTED>" true rfl rfl

/-- C9: the claim says every successfully loaded document whose
redacted form is written successfully exits with code 0, explicitly
including the empty mapping.  Evaluating `main`'s control flow refutes
it: the guard is `if config:` rather than `if config is not None:`, an
empty dict is falsy in Python, so a file containing `{}` loads
successfully yet the run exits 1 and writes nothing — while a
non-empty mapping does exit 0 with the redacted document written. -/
theorem c9_empty_mapping_eval :
    load_config (some "\x7b\x7d") (fun _ => some (.dict [])) (fun _ => none) = .ok (.dict []) ∧
    mainRun true (.ok (.dict [])) "<REDACTED>" true = (1, none) ∧
    mainRun true (.ok (.dict [("user", .str "alice")])) "<REDACTED>" true
      = (0, some (.dict [("user", .str "alice")])) := by
  refine ⟨rfl, rfl, ?_⟩
  simp [mainRun, pyTruthy, obfuscate_config]
  decide

/-- C10 counterexample: the claim states that a non-string mapping key
reached by the engine makes the key-matching step raise; but the key
only reaches `re.search` in the string-value branch, so a non-string
key whose value is not a string — here `{5: 42}` — is processed
without any exception, the engine terminating normally. -/
theorem c10_counterexample :
    obfuscateK_config "<REDACTED>" [(.int 5, .int 42)] = .ok [(.int 5, .int 42)] := by
  simp [obfuscateK_config]

/-- C10 amended: if every mapping key of the document is a string the
engine terminates normally without raising; a non-string key raises
`TypeError` (modelled as the error outcome) exactly when its value is
a string — the only branch that feeds the key to `re.search` — while a
non-string key with a non-string value is passed through and
processing continues normally. -/
theorem c10_key_types (ph : String) (es : List (PyKey × KValue))
    (h : strKeysEntries es = true) :
    (∃ r, obfuscateK_config ph es = .ok r) ∧
    obfuscateK_config ph [(.int 5, .str "x")] = .error .typeError ∧
    obfuscateK_config ph [(.int 5, .int 42)] = .ok [(.int 5, .int 42)] := by
  refine ⟨strKeys_ok_entries ph es h, by simp [obfuscateK_config], by simp [obfuscateK_config]⟩

/-- C10 witness: a concrete all-string-key document. -/
theorem c10_witness :
    (∃ r, obfuscateK_config "<REDACTED>" [(PyKey.str "password", KValue.str "x")] = .ok r) ∧
    obfuscateK_config "<REDACTED>" [(PyKey.int 5, KValue.str "x")] = .error .typeError ∧
    obfuscateK_config "<REDACTED>" [(PyKey.int 5, KValue.int 42)]
      = .ok [(PyKey.int 5, KValue.int 42)] :=
  c10_key_types "<REDACTED>" [(PyKey.str "password", KValue.str "x")] (by decide)

end ConfigObfuscator
